import Mathlib

/-!
Verification of the data-safety and duplicate-detection layer of the `al`
repository against its design document.

The Python modules `al/helpers/data_safety.py` and `al/helpers/vendor_safe.py`
are shallowly embedded below:

* Python strings are Lean `String`s; character-level processing works on
  `List Char`.
* Python floats are modelled as exact rationals (`ℚ`); every arithmetic
  expression of the source is translated literally.
* Python `Optional[T]` is `Option T`; Python truthiness of optional strings
  (`if email:`) is the predicate `pyTruthy`.
* Python dicts holding record data are association lists (`PyDict`) whose
  `get` returns the Python `None` (`PyVal.vNone`) for a missing key.
* The audit-log file is a list of lines, each either a well-formed serialized
  entry (`LogLine.good`) or a malformed line (`LogLine.bad`).
* The external record store (`VendorHelper`, a thin Notion/JSON wrapper that
  the design treats as an external collaborator) is an oracle `VendorStore`
  whose methods either return a value or raise (`Except`).
* `datetime.fromisoformat` is modelled on date-only ISO strings
  `YYYY-MM-DD`; any other string is treated as unparsable (the try/except of
  the source maps it to `none`).  A parsed date is represented by its civil
  day number, so that the `.days` of a datetime difference is the difference
  of day numbers.
* `uuid.uuid4()[:8]` and `datetime.now()` are nondeterministic; the embedded
  operations take the freshly drawn operation id and the current time as
  explicit arguments.
-/

/-- Python `str.strip()` on the character list of a string:
drop leading and trailing whitespace. -/
def pyStripChars (s : List Char) : List Char :=
  ((s.dropWhile Char.isWhitespace).reverse.dropWhile Char.isWhitespace).reverse

/-- Python `str.lower()` on a character list. -/
def pyLower (s : List Char) : List Char := s.map Char.toLower

/-- `DuplicateChecker.normalize_string`: `None` maps to the empty string,
otherwise trim then lowercase. -/
def normalize_string (s : Option String) : List Char :=
  match s with
  | none => []
  | some s => pyLower (pyStripChars s.toList)

/-- `DuplicateChecker.normalize_phone`: `None` maps to empty, otherwise keep
only digit characters. -/
def normalize_phone (phone : Option String) : List Char :=
  match phone with
  | none => []
  | some p => p.toList.filter Char.isDigit

/-- Python truthiness of an `Optional[str]`: `None` and the empty string are
falsy. -/
def pyTruthy : Option String → Bool
  | none => false
  | some s => !s.isEmpty

/-- Levenshtein edit distance (the C extension `Levenshtein.distance` of the
source), written with structural fuel recursion so that the kernel can
evaluate it.  The fuel `xs.length + ys.length` supplied by `levDist` is always
sufficient: every recursive call shrinks the combined length by at least one,
so the fuel-exhausted branch is unreachable. -/
def levDistF : Nat → List Char → List Char → Nat
  | _, [], ys => ys.length
  | _, xs, [] => xs.length
  | 0, _, _ => 0
  | fuel + 1, x :: xs, y :: ys =>
      if x = y then levDistF fuel xs ys
      else 1 + min (levDistF fuel xs ys)
        (min (levDistF fuel (x :: xs) ys) (levDistF fuel xs (y :: ys)))

/-- Levenshtein distance between two character lists. -/
def levDist (xs ys : List Char) : Nat := levDistF (xs.length + ys.length) xs ys

/-- `DuplicateChecker.string_similarity`: 0.0 if either normalized string is
empty, otherwise `1 - distance / max_len` (with the source's dead
`max_len == 0` guard kept). -/
def string_similarity (s1 s2 : String) : ℚ :=
  let s1_norm := normalize_string (some s1)
  let s2_norm := normalize_string (some s2)
  if s1_norm = [] ∨ s2_norm = [] then 0
  else
    let distance := levDist s1_norm s2_norm
    let max_len := max s1_norm.length s2_norm.length
    if max_len = 0 then 1
    else 1 - (distance : ℚ) / (max_len : ℚ)

/-- Python `str.split()` with no separator: split on runs of whitespace,
dropping empty pieces (helper carrying the current word, reversed). -/
def splitWsAux : List Char → List Char → List (List Char)
  | [], acc => if acc = [] then [] else [acc.reverse]
  | c :: cs, acc =>
      if c.isWhitespace then
        if acc = [] then splitWsAux cs [] else acc.reverse :: splitWsAux cs []
      else splitWsAux cs (c :: acc)

/-- Python `str.split()` with no separator. -/
def splitWs (s : List Char) : List (List Char) := splitWsAux s []

/-- The fixed stop-word set of `DuplicateChecker.contains_same_words`. -/
def commonWords : List (List Char) :=
  (["the", "a", "an", "and", "or", "but", "in", "on", "at", "to", "for"].map
    String.toList)

/-- `DuplicateChecker.contains_same_words`: tokenize the normalized strings,
remove the stop words, and compare the Jaccard overlap of the remaining token
sets against 0.8. -/
def contains_same_words (s1 s2 : String) : Bool :=
  let words1 := (splitWs (normalize_string (some s1))).toFinset \ commonWords.toFinset
  let words2 := (splitWs (normalize_string (some s2))).toFinset \ commonWords.toFinset
  if words1 = ∅ ∨ words2 = ∅ then false
  else
    let inter := words1 ∩ words2
    let uni := words1 ∪ words2
    if inter.card = 0 then false
    else decide ((inter.card : ℚ) / (uni.card : ℚ) ≥ 8/10)

/-- `DuplicateMatch` of `data_safety.py`, parametrized by the type of the
candidate record snapshot. -/
structure DuplicateMatch (α : Type) where
  record_id : String
  similarity_score : ℚ
  matched_fields : List String
  data : α
deriving DecidableEq

/-- Stable insert of a match into a list sorted by descending score.  In the
foldr-based sort below the inserted element is the originally *earlier* one
relative to the already-sorted elements, so stability requires it to go after
every element of strictly greater score and before every element of score
≤ its own. -/
def insertDesc {α : Type} (x : DuplicateMatch α) :
    List (DuplicateMatch α) → List (DuplicateMatch α)
  | [] => [x]
  | y :: ys =>
      if x.similarity_score ≥ y.similarity_score then x :: y :: ys
      else y :: insertDesc x ys

/-- Python `list.sort(key=lambda x: x.similarity_score, reverse=True)`:
a stable sort by descending score, realized as insertion sort via `foldr`
(each element is inserted into the sorted list of the elements after it,
landing before any later element of equal score). -/
def sortDesc {α : Type} (l : List (DuplicateMatch α)) : List (DuplicateMatch α) :=
  l.foldr insertDesc []

/-- The candidate-vendor dicts built by the callers of
`check_vendor_duplicates` (keys `id`, `name`, `email`, `phone`, `products`). -/
structure VendorRec where
  id : String
  name : String
  email : Option String
  phone : Option String
  products : List String
deriving DecidableEq

/-- The per-candidate body of `DuplicateChecker.check_vendor_duplicates`:
returns the accumulated `matched_fields` and `similarity_score` for one
existing vendor. -/
def checkVendorOne (name : String) (email phone : Option String)
    (vendor : VendorRec) : List String × ℚ :=
  let name_similarity := string_similarity name vendor.name
  let name_distance :=
    levDist (normalize_string (some name)) (normalize_string (some vendor.name))
  let step1 : List String × ℚ :=
    if name_similarity ≥ 3/4 then
      (["name_similarity"], max 0 name_similarity)
    else if name_distance ≤ 3 then
      (["name_close"], max 0 (7/10))
    else if contains_same_words name vendor.name then
      (["name_words"], max 0 (8/10))
    else ([], 0)
  let step2 : List String × ℚ :=
    if pyTruthy email && pyTruthy vendor.email then
      if normalize_string email = normalize_string vendor.email then
        (step1.1 ++ ["email"], 1)
      else step1
    else step1
  let step3 : List String × ℚ :=
    if pyTruthy phone && pyTruthy vendor.phone then
      if normalize_phone phone = normalize_phone vendor.phone then
        (step2.1 ++ ["phone"], 1)
      else step2
    else step2
  step3

/-- `DuplicateChecker.check_vendor_duplicates`: collect every candidate with at
least one fired rule, sorted by descending score. -/
def check_vendor_duplicates (name : String) (email phone : Option String)
    (existing_vendors : List VendorRec) : List (DuplicateMatch VendorRec) :=
  sortDesc (existing_vendors.filterMap fun vendor =>
    let r := checkVendorOne name email phone vendor
    if r.1 = [] then none else some ⟨vendor.id, r.2, r.1, vendor⟩)

/-- Whether a year is a Gregorian leap year. -/
def isLeapYear (y : Int) : Bool :=
  (y % 4 = 0 && y % 100 ≠ 0) || y % 400 = 0

/-- Days in a month of a given year (months numbered 1-12). -/
def daysInMonth (y : Int) (m : Nat) : Nat :=
  if m = 2 then (if isLeapYear y then 29 else 28)
  else if m = 4 ∨ m = 6 ∨ m = 9 ∨ m = 11 then 30
  else 31

/-- Civil-calendar day number of a date (days since 1970-01-01, standard
civil-from-days algorithm); used to model differences of parsed datetimes. -/
def daysFromCivil (y : Int) (m d : Nat) : Int :=
  let yy : Int := if m ≤ 2 then y - 1 else y
  let era : Int := (if yy ≥ 0 then yy else yy - 399) / 400
  let yoe : Int := yy - era * 400
  let mp : Int := if m > 2 then (m : Int) - 3 else (m : Int) + 9
  let doy : Int := (153 * mp + 2) / 5 + (d : Int) - 1
  let doe : Int := yoe * 365 + yoe / 4 - yoe / 100 + doy
  era * 146097 + doe - 719468

/-- Numeric value of two decimal digit characters. -/
def twoDigits (c1 c2 : Char) : Nat :=
  (c1.toNat - 48) * 10 + (c2.toNat - 48)

/-- Model of `datetime.fromisoformat` restricted to date-only strings
`YYYY-MM-DD` (the repository's date format); the result is the civil day
number of the parsed date.  Any other string, and any out-of-range month or
day, yields `none`, which the source's try/except turns into "unparsable". -/
def parseIsoDate (s : String) : Option Int :=
  match s.toList with
  | [y1, y2, y3, y4, '-', m1, m2, '-', d1, d2] =>
      if [y1, y2, y3, y4, m1, m2, d1, d2].all Char.isDigit then
        let y : Int := ((twoDigits y1 y2) * 100 + twoDigits y3 y4 : Nat)
        let m := twoDigits m1 m2
        let d := twoDigits d1 d2
        if 1 ≤ m ∧ m ≤ 12 ∧ 1 ≤ d ∧ d ≤ daysInMonth y m then
          some (daysFromCivil y m d)
        else none
      else none
  | _ => none

/-- The existing-invoice dicts consumed by `check_invoice_duplicates`
(keys `id`, `vendor_name`, `total_amount`, `order_date`, `order_number`). -/
structure InvoiceRec where
  id : String
  vendor_name : String
  total_amount : ℚ
  order_date : String
  order_number : String
deriving DecidableEq

/-- The order-number rule of `check_invoice_duplicates`: both order numbers
truthy and normalized-equal fires the `order_number` tag with score 1.0. -/
def invoiceOrderStep (order_number : Option String) (invoice : InvoiceRec) :
    List String × ℚ :=
  if pyTruthy order_number && !invoice.order_number.isEmpty then
    if normalize_string order_number =
        normalize_string (some invoice.order_number) then
      (["order_number"], 1)
    else ([], 0)
  else ([], 0)

/-- The date-plus-amount rule of `check_invoice_duplicates`, applied after the
order-number rule (`step1`): both dates parsed, within 7 days, and the
relative amount difference — taken as 0 whenever the intended amount is not
positive — within 10%, fires the `date_and_amount` tag with score at least
0.9. -/
def invoiceDateStep (target_date : Option Int) (amount : ℚ)
    (invoice : InvoiceRec) (step1 : List String × ℚ) : List String × ℚ :=
  match target_date with
  | none => step1
  | some td =>
      if invoice.order_date.isEmpty then step1
      else
        match parseIsoDate invoice.order_date with
        | none => step1
        | some idate =>
            let days_diff := (td - idate).natAbs
            if days_diff ≤ 7 then
              let amount_diff_pct : ℚ :=
                if amount > 0 then
                  |amount - invoice.total_amount| /
                    max amount invoice.total_amount
                else 0
              if amount_diff_pct ≤ 1/10 then
                (step1.1 ++ ["date_and_amount"], max step1.2 (9/10))
              else step1
            else step1

/-- The per-candidate body of `check_invoice_duplicates`; candidates whose
vendor-name similarity is below 0.8 are skipped outright. -/
def checkInvoiceOne (vendor_name : String) (target_date : Option Int)
    (amount : ℚ) (order_number : Option String) (invoice : InvoiceRec) :
    Option (DuplicateMatch InvoiceRec) :=
  if string_similarity vendor_name invoice.vendor_name < 8/10 then none
  else
    let step2 :=
      invoiceDateStep target_date amount invoice (invoiceOrderStep order_number invoice)
    if step2.1 = [] then none else some ⟨invoice.id, step2.2, step2.1, invoice⟩

/-- `DuplicateChecker.check_invoice_duplicates`. -/
def check_invoice_duplicates (vendor_name : String) (amount : ℚ)
    (order_date : String) (order_number : Option String)
    (existing_invoices : List InvoiceRec) : List (DuplicateMatch InvoiceRec) :=
  let target_date := parseIsoDate order_date
  sortDesc (existing_invoices.filterMap
    (checkInvoiceOne vendor_name target_date amount order_number))

/-- A Python value as stored in the record dicts handled by the safety layer:
strings, `None`, integers, rationals (floats), booleans, and lists of
strings. -/
inductive PyVal where
  | vStr (s : String)
  | vNone
  | vInt (n : Int)
  | vRat (q : ℚ)
  | vBool (b : Bool)
  | vListStr (xs : List String)
deriving DecidableEq

/-- A Python dict with string keys, as an association list (keys unique in
every dict the program builds). -/
def PyDict : Type := List (String × PyVal)

instance : DecidableEq PyDict := by
  unfold PyDict
  infer_instance

/-- Python `d.get(field)`: the value for the key, or `None` when absent. -/
def pyGet (d : PyDict) (k : String) : PyVal :=
  match d.find? (fun p => p.1 = k) with
  | some p => p.2
  | none => PyVal.vNone

/-- The list of keys of a dict (`list(d.keys())`). -/
def pyKeys (d : PyDict) : List String := d.map Prod.fst

/-- Python `str.strip()` as a `String` function. -/
def pyStrip (s : String) : String := ⟨pyStripChars s.toList⟩

/-- `ChangeVerifier.normalize_value`: trim strings, map `None` to the empty
string, pass every other value through unchanged. -/
def normalize_value : PyVal → PyVal
  | .vStr s => .vStr (pyStrip s)
  | .vNone => .vStr ""
  | v => v

/-- One mismatch record `{field, intended, actual}` of a verification. -/
structure Mismatch where
  mfield : String
  intended : PyVal
  actual : PyVal
deriving DecidableEq

/-- `VerificationResult` of `data_safety.py`. -/
structure VerificationResult where
  passed : Bool
  mismatches : List Mismatch
  record_id : PyVal
deriving DecidableEq

/-- The mismatch list accumulated by `ChangeVerifier.verify_record` over the
fields to check. -/
def mismatchList (intended_data actual_data : PyDict) (fields : List String) :
    List Mismatch :=
  fields.filterMap fun f =>
    let intended_value := normalize_value (pyGet intended_data f)
    let actual_value := normalize_value (pyGet actual_data f)
    if intended_value ≠ actual_value then some ⟨f, intended_value, actual_value⟩
    else none

/-- `ChangeVerifier.verify_record`: with `fields_to_check = none` every key of
the intended dict is checked; `passed` iff no mismatches; `record_id` from the
actual dict's `id` key. -/
def verify_record (intended_data actual_data : PyDict)
    (fields_to_check : Option (List String)) : VerificationResult :=
  let fields := fields_to_check.getD (pyKeys intended_data)
  let mismatches := mismatchList intended_data actual_data fields
  ⟨mismatches.isEmpty, mismatches, pyGet actual_data "id"⟩

/-- One line of the audit-log file: a well-formed serialized entry or a
malformed line (which `json.loads`/`AuditEntry(**data)` would reject). -/
inductive LogLine (ε : Type) where
  | good (e : ε)
  | bad
deriving DecidableEq

/-- The state of `AuditLogger`'s durable storage: the current log file as a
list of lines, and the archived log files. -/
structure AuditLoggerState (ε : Type) where
  current : List (LogLine ε)
  archive : List (List (LogLine ε))
deriving DecidableEq

/-- `AuditLogger.MAX_ENTRIES`. -/
def MAX_ENTRIES : Nat := 10000

/-- `AuditLogger._count_entries`: number of lines of the current log file. -/
def countEntries {ε : Type} (st : AuditLoggerState ε) : Nat := st.current.length

/-- `AuditLogger._rotate_if_needed`: when the current log has reached
`MAX_ENTRIES` lines, move it wholesale into the archive and start a fresh
empty log. -/
def rotate_if_needed {ε : Type} (st : AuditLoggerState ε) : AuditLoggerState ε :=
  if countEntries st ≥ MAX_ENTRIES then ⟨[], st.archive ++ [st.current]⟩ else st

/-- `AuditLogger.log`: rotate first if needed, then append the one new entry
as one new line. -/
def logEntry {ε : Type} (st : AuditLoggerState ε) (e : ε) : AuditLoggerState ε :=
  let st1 := rotate_if_needed st
  ⟨st1.current ++ [LogLine.good e], st1.archive⟩

/-- Parsing one line on read-back: well-formed lines yield their entry,
malformed lines are skipped. -/
def parseLine {ε : Type} : LogLine ε → Option ε
  | .good e => some e
  | .bad => none

/-- Python `lines[-limit:]` for a nonnegative `limit`: the last `limit`
elements — except that `limit = 0` yields `lines[0:]`, the whole list. -/
def pyTailSlice {α : Type} (xs : List α) (limit : Nat) : List α :=
  if limit = 0 then xs else xs.drop (xs.length - limit)

/-- `AuditLogger.get_recent_entries`: parse the last `limit` lines of the
current log, skipping malformed lines. -/
def get_recent_entries {ε : Type} (st : AuditLoggerState ε) (limit : Nat) :
    List ε :=
  (pyTailSlice st.current limit).filterMap parseLine

/-- `AuditEntry` of `data_safety.py` (vendor-flow instantiation: the duplicate
details are vendor duplicate matches). -/
structure AuditEntry where
  timestamp : String
  operation : String
  entity_type : String
  user : String
  intended_data : PyDict
  duplicates_found : Nat
  duplicate_details : List (DuplicateMatch VendorRec)
  user_confirmed : Option Bool
  confirmation_choice : Option String
  result : String
  verification : Option VerificationResult
  notion_record_id : Option String
  actual_data : Option PyDict
  error : Option String
deriving DecidableEq

/-- One entry of the process-wide `PendingConfirmation._pending` table. -/
structure PendingOp where
  timestamp : Nat
  operation : String
  entity_type : String
  intended_data : PyDict
  duplicates : List (DuplicateMatch VendorRec)
deriving DecidableEq

/-- Python dict lookup on an association list (first binding wins; the
program keeps keys unique). -/
def dictGet {α : Type} (d : List (String × α)) (k : String) : Option α :=
  match d.find? (fun p => p.1 = k) with
  | some p => some p.2
  | none => none

/-- Python dict assignment `d[k] = v`: overwrite in place when the key
exists, append otherwise. -/
def dictSet {α : Type} (d : List (String × α)) (k : String) (v : α) :
    List (String × α) :=
  if d.any (fun p => p.1 = k) then
    d.map (fun p => if p.1 = k then (k, v) else p)
  else d ++ [(k, v)]

/-- Python `d.pop(k, None)`'s effect on the dict. -/
def dictPop {α : Type} (d : List (String × α)) (k : String) :
    List (String × α) :=
  d.filter (fun p => p.1 ≠ k)

/-- The process-wide mutable state the safe vendor operations touch: the
`PendingConfirmation` tables and the audit logger's storage. -/
structure SafeState where
  pendingMap : List (String × PendingOp)
  lastReminder : List (String × Nat)
  logger : AuditLoggerState AuditEntry
deriving DecidableEq

/-- `PendingConfirmation.add`. -/
def pcAdd (st : SafeState) (operation_id : String) (p : PendingOp)
    (tnow : Nat) : SafeState :=
  ⟨dictSet st.pendingMap operation_id p,
   dictSet st.lastReminder operation_id tnow, st.logger⟩

/-- `PendingConfirmation.get`. -/
def pcGet (st : SafeState) (operation_id : String) : Option PendingOp :=
  dictGet st.pendingMap operation_id

/-- `PendingConfirmation.remove`. -/
def pcRemove (st : SafeState) (operation_id : String) : SafeState :=
  ⟨dictPop st.pendingMap operation_id,
   dictPop st.lastReminder operation_id, st.logger⟩

/-- Appending one audit entry through the logger. -/
def withLog (st : SafeState) (e : AuditEntry) : SafeState :=
  ⟨st.pendingMap, st.lastReminder, logEntry st.logger e⟩

/-- The `Vendor` dataclass of `vendor_helper.py`. -/
structure Vendor where
  name : String
  contact_name : Option String
  email : Option String
  phone : Option String
  products : List String
  lead_time_days : Option Int
  notes : Option String
  last_order_date : Option String
  last_order_details : Option String
deriving DecidableEq

/-- The external record store (`VendorHelper`) as an oracle: each method
either returns its value or raises with a message.  Method argument order
follows the source: name, contact name, email, phone, products, lead time,
notes. -/
structure VendorStore where
  get_all_vendors : Except String (List Vendor)
  add_vendor : String → Option String → Option String → Option String →
    Option (List String) → Option Int → Option String → Except String Vendor
  get_vendor : String → Except String (Option Vendor)
  update_vendor : String → Option String → Option String → Option String →
    Option (List String) → Option Int → Option String → Except String Vendor

/-- The existing-vendor dict built from a store vendor by `add_vendor_safe`
(the vendor's name doubles as its id). -/
def vendorToRec (v : Vendor) : VendorRec :=
  ⟨v.name, v.name, v.email, v.phone, v.products⟩

/-- An optional string as a Python dict value. -/
def optStr : Option String → PyVal
  | none => .vNone
  | some s => .vStr s

/-- An optional integer as a Python dict value. -/
def optInt : Option Int → PyVal
  | none => .vNone
  | some n => .vInt n

/-- The `intended_data` dict built at the top of `add_vendor_safe`
(note `products or []`). -/
def vendorIntendedDict (name : String) (contact_name email phone : Option String)
    (products : Option (List String)) (lead_time_days : Option Int)
    (notes : Option String) : PyDict :=
  [("name", .vStr name), ("contact_name", optStr contact_name),
   ("email", optStr email), ("phone", optStr phone),
   ("products", .vListStr (products.getD [])),
   ("lead_time_days", optInt lead_time_days), ("notes", optStr notes)]

/-- The `actual_data` dict read back from the vendor the store returned. -/
def vendorActualDict (v : Vendor) : PyDict :=
  [("name", .vStr v.name), ("contact_name", optStr v.contact_name),
   ("email", optStr v.email), ("phone", optStr v.phone),
   ("products", .vListStr v.products),
   ("lead_time_days", optInt v.lead_time_days), ("notes", optStr v.notes)]

/-- Unpacking a string-typed keyword argument from a stored `intended_data`
dict (Python `**intended_data`); the dicts this program unpacks always hold a
string under the key. -/
def asStr : PyVal → String
  | .vStr s => s
  | _ => ""

/-- Unpacking an `Optional[str]` keyword argument from a stored dict: a
missing key or a stored `None` is passed as `None`. -/
def asOptStr : PyVal → Option String
  | .vStr s => some s
  | _ => none

/-- Unpacking an `Optional[List[str]]` keyword argument from a stored dict. -/
def asOptListStr : PyVal → Option (List String)
  | .vListStr xs => some xs
  | _ => none

/-- Unpacking an `Optional[int]` keyword argument from a stored dict. -/
def asOptInt : PyVal → Option Int
  | .vInt n => some n
  | _ => none

/-- The result dict of a safe vendor operation; keys a branch does not set
are `none`. -/
structure OpResult where
  status : String
  message : String
  operation_id : Option String
  duplicates : Option (List (DuplicateMatch VendorRec))
  intended_data : Option PyDict
  vendor : Option PyDict
  verification : Option VerificationResult
  error : Option String
  current_data : Option PyDict
  proposed_changes : Option PyDict
deriving DecidableEq

/-- A result dict carrying only `status`, `message` and `error`. -/
def mkFailedResult (msg err : String) : OpResult :=
  ⟨"failed", msg, none, none, none, none, none, some err, none, none⟩

/-- A result dict carrying only `status` and `message`. -/
def mkPlainResult (status msg : String) : OpResult :=
  ⟨status, msg, none, none, none, none, none, none, none, none⟩

/-- The error string attached when verification fails (the source embeds the
Python repr of the mismatch list; only its presence matters here, so the
model keeps the prefix and the mismatch count). -/
def mismatchMsg (ms : List Mismatch) : String :=
  "Mismatches: " ++ toString ms.length

/-- Steps 2-5 of `SafeVendorOperations.add_vendor_safe` (the write, the
read-back verification, the audit entry, the returned dict) together with the
exception handler around them.  `skip` records whether the duplicate check was
bypassed, which the source reflects in `user_confirmed` and
`confirmation_choice`; the source's `duplicates` variable is still `[]` on
every path that reaches the write, so `duplicates_found` is 0 here. -/
def addVendorWritePath (store : VendorStore) (st : SafeState) (now : String)
    (name : String) (contact_name email phone : Option String)
    (products : Option (List String)) (lead_time_days : Option Int)
    (notes : Option String) (skip : Bool) (intended : PyDict) :
    Except String (OpResult × SafeState) :=
  match store.add_vendor name contact_name email phone products lead_time_days
      notes with
  | .error e =>
      let entry : AuditEntry := ⟨now, "add_vendor", "vendor", "jeff", intended,
        0, [], (if skip then some true else none),
        (if skip then some "create_new" else none), "failed", none, none, none,
        some e⟩
      .ok (mkFailedResult ("Failed to add vendor: " ++ e) e, withLog st entry)
  | .ok vendor =>
      let actual := vendorActualDict vendor
      let verification := verify_record intended actual none
      let entry : AuditEntry := ⟨now, "add_vendor", "vendor", "jeff", intended,
        0, [], (if skip then some true else none),
        (if skip then some "create_new" else none),
        (if verification.passed then "success" else "verification_failed"),
        some verification, some vendor.name, some actual, none⟩
      let st1 := withLog st entry
      if verification.passed then
        .ok (⟨"success", "Vendor " ++ name ++ " added successfully and verified.",
          none, none, none, some actual, some verification, none, none, none⟩,
          st1)
      else
        .ok (⟨"verification_failed",
          "Vendor " ++ name ++ " was added but verification failed!",
          none, none, none, some actual, some verification,
          some (mismatchMsg verification.mismatches), none, none⟩, st1)

/-- `SafeVendorOperations.add_vendor_safe`.  The freshly drawn
`uuid.uuid4()[:8]` is the explicit argument `operation_id`; `now`/`tnow` model
`datetime.now()`.  An exception from the candidate read
(`get_all_vendors`) propagates uncaught, as in the source. -/
def add_vendor_safe (store : VendorStore) (st : SafeState)
    (operation_id now : String) (tnow : Nat) (name : String)
    (contact_name email phone : Option String)
    (products : Option (List String)) (lead_time_days : Option Int)
    (notes : Option String) (skip_duplicate_check : Bool) :
    Except String (OpResult × SafeState) :=
  let intended :=
    vendorIntendedDict name contact_name email phone products lead_time_days notes
  if skip_duplicate_check then
    addVendorWritePath store st now name contact_name email phone products
      lead_time_days notes true intended
  else
    match store.get_all_vendors with
    | .error e => .error e
    | .ok existing_vendors =>
        let existing := existing_vendors.map vendorToRec
        let duplicate_matches := check_vendor_duplicates name email phone existing
        if duplicate_matches = [] then
          addVendorWritePath store st now name contact_name email phone products
            lead_time_days notes false intended
        else
          let st1 := pcAdd st operation_id
            ⟨tnow, "add_vendor", "vendor", intended, duplicate_matches⟩ tnow
          let n := duplicate_matches.length
          let entry : AuditEntry := ⟨now, "add_vendor", "vendor", "jeff",
            intended, n, duplicate_matches, none, none, "pending", none, none,
            none, none⟩
          let st2 := withLog st1 entry
          .ok (⟨"duplicate_found",
            "Found " ++ toString n ++ " potential duplicate(s). Need confirmation.",
            some operation_id, some duplicate_matches, some intended, none, none,
            none, none, none⟩, st2)

/-- `SafeVendorOperations.update_vendor_safe`: look up the target, stage the
provided fields as a pending confirmation, return the before/after payload.
A missing vendor is a `failed` return with no audit entry (as in the
source). -/
def update_vendor_safe (store : VendorStore) (st : SafeState)
    (operation_id : String) (tnow : Nat) (name : String)
    (contact_name email phone : Option String)
    (products : Option (List String)) (lead_time_days : Option Int)
    (notes : Option String) : Except String (OpResult × SafeState) :=
  match store.get_vendor name with
  | .error e => .error e
  | .ok none =>
      .ok (mkFailedResult ("Vendor " ++ name ++ " not found.")
        "Vendor not found", st)
  | .ok (some current_vendor) =>
      let update_data : PyDict :=
        (match contact_name with
          | some s => [("contact_name", PyVal.vStr s)] | none => []) ++
        (match email with | some s => [("email", PyVal.vStr s)] | none => []) ++
        (match phone with | some s => [("phone", PyVal.vStr s)] | none => []) ++
        (match products with
          | some xs => [("products", PyVal.vListStr xs)] | none => []) ++
        (match lead_time_days with
          | some n => [("lead_time_days", PyVal.vInt n)] | none => []) ++
        (match notes with | some s => [("notes", PyVal.vStr s)] | none => [])
      let current_data : PyDict :=
        [("contact_name", optStr current_vendor.contact_name),
         ("email", optStr current_vendor.email),
         ("phone", optStr current_vendor.phone),
         ("products", .vListStr current_vendor.products),
         ("lead_time_days", optInt current_vendor.lead_time_days),
         ("notes", optStr current_vendor.notes)]
      let intended : PyDict := ("name", PyVal.vStr name) :: update_data
      let st1 := pcAdd st operation_id
        ⟨tnow, "update_vendor", "vendor", intended, []⟩ tnow
      .ok (⟨"confirmation_required", "Please confirm update to vendor " ++ name,
        some operation_id, none, none, none, none, none, some current_data,
        some update_data⟩, st1)

/-- The `confirm`/`proceed` write of `confirm_operation` for a staged update:
execute the update against the store, verify the read-back, audit, with the
exception handler of the source. -/
def confirmUpdateWrite (store : VendorStore) (st : SafeState) (now : String)
    (intended : PyDict) : Except String (OpResult × SafeState) :=
  match store.update_vendor (asStr (pyGet intended "name"))
      (asOptStr (pyGet intended "contact_name"))
      (asOptStr (pyGet intended "email")) (asOptStr (pyGet intended "phone"))
      (asOptListStr (pyGet intended "products"))
      (asOptInt (pyGet intended "lead_time_days"))
      (asOptStr (pyGet intended "notes")) with
  | .error e =>
      let entry : AuditEntry := ⟨now, "update_vendor", "vendor", "jeff",
        intended, 0, [], some true, some "confirm", "failed", none, none, none,
        some e⟩
      .ok (mkFailedResult ("Failed to update vendor: " ++ e) e, withLog st entry)
  | .ok vendor =>
      let actual := vendorActualDict vendor
      let verification := verify_record intended actual none
      let entry : AuditEntry := ⟨now, "update_vendor", "vendor", "jeff",
        intended, 0, [], some true, some "confirm",
        (if verification.passed then "success" else "verification_failed"),
        some verification, some vendor.name, some actual, none⟩
      let st1 := withLog st entry
      if verification.passed then
        .ok (⟨"success", "Vendor " ++ asStr (pyGet intended "name") ++
          " updated successfully and verified.", none, none, none, some actual,
          some verification, none, none, none⟩, st1)
      else
        .ok (⟨"verification_failed", "Vendor updated but verification failed!",
          none, none, none, some actual, some verification, none, none, none⟩,
          st1)

/-- `SafeVendorOperations.confirm_operation`.  `new_operation_id` models the
uuid a nested `add_vendor_safe`/`update_vendor_safe` call would draw.  The
pending entry is removed before the choice is inspected; an unknown id and an
unrecognized choice are `failed` returns with no audit entry (as in the
source). -/
def confirm_operation (store : VendorStore) (st : SafeState)
    (new_operation_id now : String) (tnow : Nat)
    (operation_id choice : String) (update_record_id : Option String) :
    Except String (OpResult × SafeState) :=
  match pcGet st operation_id with
  | none =>
      .ok (mkFailedResult ("No pending operation found with ID " ++ operation_id)
        "Operation not found or already processed", st)
  | some pending =>
      let operation := pending.operation
      let intended := pending.intended_data
      let st1 := pcRemove st operation_id
      if choice = "cancel" then
        let entry : AuditEntry := ⟨now, operation, pending.entity_type, "jeff",
          intended, pending.duplicates.length, pending.duplicates, some false,
          some "cancel", "cancelled", none, none, none, none⟩
        .ok (mkPlainResult "cancelled" "Operation cancelled by user",
          withLog st1 entry)
      else if choice = "create_new" then
        if operation = "add_vendor" then
          add_vendor_safe store st1 new_operation_id now tnow
            (asStr (pyGet intended "name"))
            (asOptStr (pyGet intended "contact_name"))
            (asOptStr (pyGet intended "email"))
            (asOptStr (pyGet intended "phone"))
            (asOptListStr (pyGet intended "products"))
            (asOptInt (pyGet intended "lead_time_days"))
            (asOptStr (pyGet intended "notes")) true
        else
          .ok (mkFailedResult ("Cannot create_new for operation " ++ operation)
            "Invalid choice for this operation", st1)
      else if choice = "update_existing" then
        if !(pyTruthy update_record_id) then
          .ok (mkFailedResult "update_record_id required for update_existing choice"
            "Missing update_record_id", st1)
        else if operation = "add_vendor" then
          update_vendor_safe store st1 new_operation_id tnow
            (update_record_id.getD "")
            (asOptStr (pyGet intended "contact_name"))
            (asOptStr (pyGet intended "email"))
            (asOptStr (pyGet intended "phone"))
            (asOptListStr (pyGet intended "products"))
            (asOptInt (pyGet intended "lead_time_days"))
            (asOptStr (pyGet intended "notes"))
        else
          .ok (mkFailedResult ("Cannot update_existing for operation " ++ operation)
            "Invalid choice for this operation", st1)
      else if choice = "confirm" ∨ choice = "proceed" then
        if operation = "update_vendor" then
          confirmUpdateWrite store st1 now intended
        else
          .ok (mkFailedResult ("Unknown choice: " ++ choice) "Invalid choice", st1)
      else
        .ok (mkFailedResult ("Unknown choice: " ++ choice) "Invalid choice", st1)

/-- The state of a fresh process: no pending confirmations, empty audit log. -/
def emptySafeState : SafeState := ⟨[], [], ⟨[], []⟩⟩

/-- A store oracle whose every method raises; usable where the store is never
reached. -/
def stubStore : VendorStore :=
  ⟨.error "store down", fun _ _ _ _ _ _ _ => .error "store down",
   fun _ => .error "store down", fun _ _ _ _ _ _ _ => .error "store down"⟩

/-- A store oracle holding one vendor named "acme" (write methods raise; the
duplicate-found flow never reaches them). -/
def oneVendorStore : VendorStore :=
  ⟨.ok [⟨"acme", none, none, none, [], none, none, none, none⟩],
   fun _ _ _ _ _ _ _ => .error "store down",
   fun _ => .error "store down", fun _ _ _ _ _ _ _ => .error "store down"⟩

/-- A store oracle with an empty vendor list whose write methods raise: the
candidate read succeeds, the duplicate check finds nothing, and the write
fails. -/
def emptyFailStore : VendorStore :=
  ⟨.ok [], fun _ _ _ _ _ _ _ => .error "store down",
   fun _ => .error "store down", fun _ _ _ _ _ _ _ => .error "store down"⟩

theorem levDistF_self (xs : List Char) : ∀ fuel : Nat, levDistF fuel xs xs = 0 := by
  induction xs with
  | nil => intro fuel; cases fuel <;> rfl
  | cons x xs ih =>
      intro fuel
      cases fuel with
      | zero => rfl
      | succ n => simpa [levDistF] using ih n

theorem levDist_self (xs : List Char) : levDist xs xs = 0 :=
  levDistF_self xs _

/-- Self-similarity is exactly 1 whenever the normalized string is
non-empty. -/
theorem string_similarity_self (a : String)
    (h : normalize_string (some a) ≠ []) : string_similarity a a = 1 := by
  unfold string_similarity
  simp [h, levDist_self]

theorem sortDesc_cons {α : Type} (x : DuplicateMatch α) (l : List (DuplicateMatch α)) :
    sortDesc (x :: l) = insertDesc x (sortDesc l) := rfl

theorem mem_insertDesc {α : Type} (x a : DuplicateMatch α)
    (l : List (DuplicateMatch α)) : a ∈ insertDesc x l ↔ a = x ∨ a ∈ l := by
  induction l with
  | nil => simp [insertDesc]
  | cons y ys ih =>
      simp only [insertDesc]
      split
      · simp
      · simp only [List.mem_cons, ih]
        tauto

theorem mem_sortDesc {α : Type} (a : DuplicateMatch α)
    (l : List (DuplicateMatch α)) : a ∈ sortDesc l ↔ a ∈ l := by
  induction l with
  | nil => simp [sortDesc]
  | cons x xs ih =>
      rw [sortDesc_cons, mem_insertDesc]
      simp [ih]

/-- C2, counterexample: at `a = ""` the claim's first conjunct demands
`similarity(a, a) = 1.0`, but the code returns 0.0 because both normalized
strings are empty. -/
theorem claim_C2_counterexample :
    string_similarity "" "" = 0 ∧ string_similarity "" "" ≠ 1 := by
  have h : string_similarity "" "" = 0 := by
    unfold string_similarity
    simp [normalize_string, pyStripChars, pyLower]
  exact ⟨h, by rw [h]; norm_num⟩

/-- C2, amended: self-similarity is 1.0 for every string whose trim/lowercase
normalization is non-empty; whenever either normalized string is empty
(including both), the similarity is 0.0. -/
theorem claim_C2_similarity :
    (∀ a : String, normalize_string (some a) ≠ [] → string_similarity a a = 1) ∧
    (∀ a b : String,
      normalize_string (some a) = [] ∨ normalize_string (some b) = [] →
      string_similarity a b = 0) := by
  refine ⟨fun a h => string_similarity_self a h, fun a b h => ?_⟩
  unfold string_similarity
  simp only [if_pos h]

/-- C2, witness: the amended theorem applied at "Al" (non-empty) and at the
pair (" ", "x") whose first component normalizes to empty. -/
theorem claim_C2_witness :
    (normalize_string (some "Al") ≠ [] ∧ string_similarity "Al" "Al" = 1) ∧
    ((normalize_string (some " ") = [] ∨ normalize_string (some "x") = []) ∧
      string_similarity " " "x" = 0) :=
  ⟨⟨by decide, claim_C2_similarity.1 "Al" (by decide)⟩,
   ⟨Or.inl (by decide), claim_C2_similarity.2 " " "x" (Or.inl (by decide))⟩⟩

/-- C4, counterexample: a current log holding one well-formed entry and
`limit = 0` — `lines[-limit:]` is the whole file, so one entry is returned
where the claim allows none. -/
theorem claim_C4_counterexample :
    get_recent_entries (AuditLoggerState.mk [LogLine.good (0 : Nat)] []) 0 =
      [0] ∧
    ¬ (get_recent_entries (AuditLoggerState.mk [LogLine.good (0 : Nat)] [])
        0).length ≤ 0 :=
  ⟨rfl, by decide⟩

/-- C4, amended: for `limit ≥ 1`, `get_recent_entries` parses exactly the last
`limit` lines of the current log, returns at most `limit` entries, in
chronological (log) order, skipping malformed lines silently; for `limit = 0`
it returns every entry of the current log rather than none. -/
theorem claim_C4_recent_entries {ε : Type} (st : AuditLoggerState ε)
    (limit : Nat) :
    (1 ≤ limit →
      get_recent_entries st limit =
        (st.current.drop (st.current.length - limit)).filterMap parseLine ∧
      (get_recent_entries st limit).length ≤ limit ∧
      (get_recent_entries st limit).Sublist (st.current.filterMap parseLine)) ∧
    (limit = 0 → get_recent_entries st limit = st.current.filterMap parseLine) := by
  constructor
  · intro hl
    have hne : limit ≠ 0 := by omega
    have heq : get_recent_entries st limit =
        (st.current.drop (st.current.length - limit)).filterMap parseLine := by
      unfold get_recent_entries pyTailSlice
      rw [if_neg hne]
    refine ⟨heq, ?_, ?_⟩
    · rw [heq]
      calc ((st.current.drop (st.current.length - limit)).filterMap parseLine).length
          ≤ (st.current.drop (st.current.length - limit)).length :=
            List.length_filterMap_le _ _
        _ ≤ limit := by rw [List.length_drop]; omega
    · rw [heq]
      exact (List.drop_sublist _ _).filterMap _
  · intro h0
    unfold get_recent_entries pyTailSlice
    rw [if_pos h0]

/-- C4, witness: the amended theorem applied to a two-line log (one good line,
one malformed) at `limit = 1` and `limit = 0`. -/
theorem claim_C4_witness :
    ((1 : Nat) ≤ 1 ∧
      (get_recent_entries (AuditLoggerState.mk [LogLine.good (7 : Nat), LogLine.bad] []) 1 =
        (([LogLine.good (7 : Nat), LogLine.bad].drop
          ([LogLine.good (7 : Nat), LogLine.bad].length - 1)).filterMap parseLine) ∧
      (get_recent_entries (AuditLoggerState.mk [LogLine.good (7 : Nat), LogLine.bad] []) 1).length ≤ 1 ∧
      (get_recent_entries (AuditLoggerState.mk [LogLine.good (7 : Nat), LogLine.bad] []) 1).Sublist
        ([LogLine.good (7 : Nat), LogLine.bad].filterMap parseLine))) ∧
    ((0 : Nat) = 0 ∧
      get_recent_entries (AuditLoggerState.mk [LogLine.good (7 : Nat), LogLine.bad] []) 0 =
        [LogLine.good (7 : Nat), LogLine.bad].filterMap parseLine) :=
  ⟨⟨by decide,
    (claim_C4_recent_entries (AuditLoggerState.mk [LogLine.good (7 : Nat), LogLine.bad] []) 1).1
      (by decide)⟩,
   ⟨rfl,
    (claim_C4_recent_entries (AuditLoggerState.mk [LogLine.good (7 : Nat), LogLine.bad] []) 0).2
      rfl⟩⟩

theorem foldl_logEntry_no_rotation {ε : Type} (es : List ε) :
    ∀ st : AuditLoggerState ε, st.current.length + es.length ≤ MAX_ENTRIES →
      List.foldl logEntry st es = ⟨st.current ++ es.map LogLine.good, st.archive⟩ := by
  induction es with
  | nil => intro st _; cases st; simp
  | cons e es ih =>
      intro st h
      simp only [List.length_cons] at h
      have hlt : ¬ (countEntries st ≥ MAX_ENTRIES) := by
        simp only [countEntries]
        omega
      have hstep : logEntry st e = ⟨st.current ++ [LogLine.good e], st.archive⟩ := by
        unfold logEntry rotate_if_needed
        rw [if_neg hlt]
      rw [List.foldl_cons, hstep,
        ih ⟨st.current ++ [LogLine.good e], st.archive⟩ (by simp; omega)]
      simp

/-- C5: rotation behavior of the audit logger.  (1) when the current log holds
at least `MAX_ENTRIES` lines, one `log` call first archives the entire current
log and starts fresh, then appends the single new entry; (2) below the
ceiling, `log` only appends; (3) starting from an empty log, 10,000 `log`
calls never rotate, and the 10,001st leaves the current log holding exactly
the one new entry with the prior 10,000 archived as one block. -/
theorem claim_C5_rotation {ε : Type} (st : AuditLoggerState ε) (e : ε) :
    (countEntries st ≥ MAX_ENTRIES →
      logEntry st e = ⟨[LogLine.good e], st.archive ++ [st.current]⟩) ∧
    (countEntries st < MAX_ENTRIES →
      logEntry st e = ⟨st.current ++ [LogLine.good e], st.archive⟩) ∧
    (∀ es : List ε, es.length = MAX_ENTRIES →
      List.foldl logEntry ⟨[], []⟩ es = ⟨es.map LogLine.good, []⟩ ∧
      logEntry (List.foldl logEntry ⟨[], []⟩ es) e =
        ⟨[LogLine.good e], [es.map LogLine.good]⟩) := by
  refine ⟨fun h => ?_, fun h => ?_, fun es hlen => ?_⟩
  · unfold logEntry rotate_if_needed
    rw [if_pos h]
    simp
  · unfold logEntry rotate_if_needed
    rw [if_neg (by omega)]
  · have hfold : List.foldl logEntry (⟨[], []⟩ : AuditLoggerState ε) es =
        ⟨es.map LogLine.good, []⟩ := by
      rw [foldl_logEntry_no_rotation es ⟨[], []⟩ (by simp [hlen])]
      simp
    refine ⟨hfold, ?_⟩
    rw [hfold]
    unfold logEntry rotate_if_needed
    rw [if_pos (by simp [countEntries, hlen])]
    simp

/-- C5, witness: the rotation theorem applied to 10,000 concrete entries. -/
theorem claim_C5_witness :
    (List.replicate MAX_ENTRIES (0 : Nat)).length = MAX_ENTRIES ∧
    (List.foldl logEntry ⟨[], []⟩ (List.replicate MAX_ENTRIES (0 : Nat)) =
      ⟨(List.replicate MAX_ENTRIES (0 : Nat)).map LogLine.good, []⟩ ∧
    logEntry (List.foldl logEntry ⟨[], []⟩ (List.replicate MAX_ENTRIES (0 : Nat))) (5 : Nat) =
      ⟨[LogLine.good (5 : Nat)], [(List.replicate MAX_ENTRIES (0 : Nat)).map LogLine.good]⟩) :=
  ⟨List.length_replicate _ _,
   (claim_C5_rotation ⟨[], []⟩ (5 : Nat)).2.2 _ (List.length_replicate _ _)⟩

theorem mismatchList_eq_nil_iff (intended actual : PyDict)
    (fields : List String) :
    mismatchList intended actual fields = [] ↔
      ∀ k ∈ fields,
        normalize_value (pyGet intended k) = normalize_value (pyGet actual k) := by
  unfold mismatchList
  rw [List.filterMap_eq_nil_iff]
  constructor
  · intro h k hk
    have := h k hk
    by_contra hne
    simp [hne] at this
  · intro h k hk
    simp [h k hk]

theorem mismatchList_countP (intended actual : PyDict) (fields : List String)
    (hnd : fields.Nodup) (k : String) :
    (mismatchList intended actual fields).countP (fun m => m.mfield = k) =
      if k ∈ fields ∧
          normalize_value (pyGet intended k) ≠ normalize_value (pyGet actual k)
        then 1 else 0 := by
  induction fields with
  | nil => simp [mismatchList]
  | cons f fs ih =>
      have hnotin : f ∉ fs := (List.nodup_cons.mp hnd).1
      have hndfs : fs.Nodup := (List.nodup_cons.mp hnd).2
      have hcons : mismatchList intended actual (f :: fs) =
          (if normalize_value (pyGet intended f) ≠ normalize_value (pyGet actual f)
            then [(⟨f, normalize_value (pyGet intended f),
              normalize_value (pyGet actual f)⟩ : Mismatch)] else []) ++
          mismatchList intended actual fs := by
        unfold mismatchList
        rw [List.filterMap_cons]
        split <;> simp_all
      rw [hcons, List.countP_append, ih hndfs]
      by_cases hdf : normalize_value (pyGet intended f) = normalize_value (pyGet actual f)
      · rw [if_neg (by simp [hdf])]
        by_cases hkf : k = f
        · subst hkf
          simp [hdf]
        · simp [List.mem_cons, hkf]
      · rw [if_pos hdf]
        by_cases hkf : k = f
        · subst hkf
          simp [hdf, hnotin]
        · simp [List.mem_cons, hkf, Ne.symm hkf]

theorem mismatchList_mem (intended actual : PyDict) (fields : List String)
    (m : Mismatch) (hm : m ∈ mismatchList intended actual fields) :
    m.intended = normalize_value (pyGet intended m.mfield) ∧
    m.actual = normalize_value (pyGet actual m.mfield) := by
  unfold mismatchList at hm
  obtain ⟨k, _, hk⟩ := List.mem_filterMap.mp hm
  by_cases hne : normalize_value (pyGet intended k) = normalize_value (pyGet actual k)
  · simp [hne] at hk
  · simp only [if_pos (by exact hne), Option.some.injEq] at hk
    subst hk
    exact ⟨rfl, rfl⟩

/-- C7: with `fields_to_check` omitted, `verify_record` passes iff every key
of the intended dict has equal normalized values on both sides; the mismatch
list carries exactly one entry per differing key, holding the normalized
intended and actual values for that key. -/
theorem claim_C7_verify (intended actual : PyDict)
    (hnd : (pyKeys intended).Nodup) :
    ((verify_record intended actual none).passed = true ↔
      ∀ k ∈ pyKeys intended,
        normalize_value (pyGet intended k) = normalize_value (pyGet actual k)) ∧
    (∀ k : String,
      (verify_record intended actual none).mismatches.countP
          (fun m => m.mfield = k) =
        if k ∈ pyKeys intended ∧
            normalize_value (pyGet intended k) ≠ normalize_value (pyGet actual k)
          then 1 else 0) ∧
    (∀ m ∈ (verify_record intended actual none).mismatches,
      m.intended = normalize_value (pyGet intended m.mfield) ∧
      m.actual = normalize_value (pyGet actual m.mfield)) := by
  refine ⟨?_, fun k => ?_, fun m hm => ?_⟩
  · show (mismatchList intended actual (pyKeys intended)).isEmpty = true ↔ _
    rw [List.isEmpty_iff]
    exact mismatchList_eq_nil_iff intended actual (pyKeys intended)
  · exact mismatchList_countP intended actual (pyKeys intended) hnd k
  · exact mismatchList_mem intended actual (pyKeys intended) m hm

/-- C7, witness: the verifier theorem applied to the spec's own example —
intended name "Test Vendor" against a stored value with surrounding
whitespace, plus a genuinely differing note field. -/
theorem claim_C7_witness :
    (pyKeys [("name", PyVal.vStr "Test Vendor"), ("notes", PyVal.vStr "a")]).Nodup ∧
    (((verify_record [("name", PyVal.vStr "Test Vendor"), ("notes", PyVal.vStr "a")]
        [("name", PyVal.vStr "  Test Vendor  "), ("notes", PyVal.vStr "b")] none).passed = true ↔
      ∀ k ∈ pyKeys [("name", PyVal.vStr "Test Vendor"), ("notes", PyVal.vStr "a")],
        normalize_value (pyGet [("name", PyVal.vStr "Test Vendor"), ("notes", PyVal.vStr "a")] k) =
        normalize_value (pyGet [("name", PyVal.vStr "  Test Vendor  "), ("notes", PyVal.vStr "b")] k)) ∧
    (∀ k : String,
      (verify_record [("name", PyVal.vStr "Test Vendor"), ("notes", PyVal.vStr "a")]
          [("name", PyVal.vStr "  Test Vendor  "), ("notes", PyVal.vStr "b")] none).mismatches.countP
          (fun m => m.mfield = k) =
        if k ∈ pyKeys [("name", PyVal.vStr "Test Vendor"), ("notes", PyVal.vStr "a")] ∧
            normalize_value (pyGet [("name", PyVal.vStr "Test Vendor"), ("notes", PyVal.vStr "a")] k) ≠
            normalize_value (pyGet [("name", PyVal.vStr "  Test Vendor  "), ("notes", PyVal.vStr "b")] k)
          then 1 else 0) ∧
    (∀ m ∈ (verify_record [("name", PyVal.vStr "Test Vendor"), ("notes", PyVal.vStr "a")]
        [("name", PyVal.vStr "  Test Vendor  "), ("notes", PyVal.vStr "b")] none).mismatches,
      m.intended = normalize_value (pyGet [("name", PyVal.vStr "Test Vendor"), ("notes", PyVal.vStr "a")] m.mfield) ∧
      m.actual = normalize_value (pyGet [("name", PyVal.vStr "  Test Vendor  "), ("notes", PyVal.vStr "b")] m.mfield))) :=
  ⟨by decide, claim_C7_verify _ _ (by decide)⟩

/-- C9: every match returned by the invoice duplicate check has vendor-name
similarity at least 0.8 to the intended vendor, so a candidate below that
threshold is never returned — whatever its order number. -/
theorem claim_C9_vendor_filter (vendor_name : String) (amount : ℚ)
    (order_date : String) (order_number : Option String)
    (existing : List InvoiceRec) :
    ∀ m ∈ check_invoice_duplicates vendor_name amount order_date order_number
        existing,
      8/10 ≤ string_similarity vendor_name m.data.vendor_name := by
  intro m hm
  unfold check_invoice_duplicates at hm
  rw [mem_sortDesc] at hm
  obtain ⟨inv, _, hf⟩ := List.mem_filterMap.mp hm
  unfold checkInvoiceOne at hf
  by_cases hs : string_similarity vendor_name inv.vendor_name < 8/10
  · rw [if_pos hs] at hf
    exact absurd hf (by simp)
  · rw [if_neg hs] at hf
    push_neg at hs
    dsimp only at hf
    split at hf
    · exact absurd hf (by simp)
    · cases hf
      simpa using hs

/-- Fully evaluated invoice duplicate check at a concrete input with an exact
order-number match (dates left unparsable so only the order rule fires). -/
theorem invoiceEvalExample :
    check_invoice_duplicates "acme" 100 "xxxx" (some "PO1")
        [⟨"i1", "acme", 50, "", "PO1"⟩] =
      [⟨"i1", 1, ["order_number"], ⟨"i1", "acme", 50, "", "PO1"⟩⟩] := by
  have hs : ¬ (string_similarity "acme" "acme" < 8/10) := by
    rw [string_similarity_self "acme" (by decide)]
    norm_num
  have hp : parseIsoDate "xxxx" = none := by decide
  unfold check_invoice_duplicates checkInvoiceOne invoiceDateStep invoiceOrderStep
  rw [hp]
  simp +decide [hs, sortDesc, insertDesc]

/-- C9, witness: the theorem applied to the concrete evaluated match above. -/
theorem claim_C9_witness :
    (⟨"i1", 1, ["order_number"], ⟨"i1", "acme", 50, "", "PO1"⟩⟩ :
        DuplicateMatch InvoiceRec) ∈
      check_invoice_duplicates "acme" 100 "xxxx" (some "PO1")
        [⟨"i1", "acme", 50, "", "PO1"⟩] ∧
    8/10 ≤ string_similarity "acme"
      ((⟨"i1", 1, ["order_number"], ⟨"i1", "acme", 50, "", "PO1"⟩⟩ :
        DuplicateMatch InvoiceRec)).data.vendor_name :=
  ⟨by rw [invoiceEvalExample]; exact List.mem_singleton.mpr rfl,
   claim_C9_vendor_filter "acme" 100 "xxxx" (some "PO1")
     [⟨"i1", "acme", 50, "", "PO1"⟩] _
     (by rw [invoiceEvalExample]; exact List.mem_singleton.mpr rfl)⟩

/-- When the intended amount is not positive, the source's guard
`if amount > 0 else 0` reports a 0% difference, so for every same-vendor
candidate within 7 days (dates parsable) the `date_and_amount` tag fires. -/
theorem invoice_nonpos_amount_fires (vendor_name : String) (amount : ℚ)
    (order_date : String) (order_number : Option String)
    (existing : List InvoiceRec) (inv : InvoiceRec)
    (hinv : inv ∈ existing) (hamt : amount ≤ 0)
    (hsim : ¬ (string_similarity vendor_name inv.vendor_name < 8/10))
    (td idate : Int) (htd : parseIsoDate order_date = some td)
    (hde : inv.order_date.isEmpty = false)
    (hid : parseIsoDate inv.order_date = some idate)
    (hdiff : (td - idate).natAbs ≤ 7) :
    ∃ m ∈ check_invoice_duplicates vendor_name amount order_date order_number
        existing,
      m.data = inv ∧ "date_and_amount" ∈ m.matched_fields := by
  have hstep : invoiceDateStep (some td) amount inv
      (invoiceOrderStep order_number inv) =
      ((invoiceOrderStep order_number inv).1 ++ ["date_and_amount"],
        max (invoiceOrderStep order_number inv).2 (9/10)) := by
    unfold invoiceDateStep
    rw [hid]
    simp only [hde, Bool.false_eq_true, if_false, if_pos hdiff]
    rw [if_neg (not_lt.mpr hamt), if_pos (by norm_num : (0 : ℚ) ≤ 1/10)]
  refine ⟨⟨inv.id, max (invoiceOrderStep order_number inv).2 (9/10),
    (invoiceOrderStep order_number inv).1 ++ ["date_and_amount"], inv⟩, ?_,
    rfl, by simp⟩
  unfold check_invoice_duplicates
  rw [mem_sortDesc]
  apply List.mem_filterMap.mpr
  refine ⟨inv, hinv, ?_⟩
  rw [htd]
  unfold checkInvoiceOne
  rw [if_neg hsim]
  simp only [hstep]
  rw [if_neg (by simp)]

/-- C3, counterexample: intended amount 0 against a same-vendor candidate of
amount 100 two days away — the claim says the amount rule is skipped, but the
code fires `date_and_amount`. -/
theorem claim_C3_counterexample :
    ∃ m ∈ check_invoice_duplicates "acme" 0 "2025-01-10" none
        [⟨"i1", "acme", 100, "2025-01-12", ""⟩],
      m.data.total_amount = 100 ∧ "date_and_amount" ∈ m.matched_fields := by
  have hs : ¬ (string_similarity "acme" "acme" < 8/10) := by
    rw [string_similarity_self "acme" (by decide)]
    norm_num
  obtain ⟨m, hm, hd, ht⟩ := invoice_nonpos_amount_fires "acme" 0 "2025-01-10"
    none [⟨"i1", "acme", 100, "2025-01-12", ""⟩]
    ⟨"i1", "acme", 100, "2025-01-12", ""⟩ (List.mem_singleton.mpr rfl)
    le_rfl hs 20098 20100 (by decide) (by decide) (by decide) (by decide)
  exact ⟨m, hm, by rw [hd], ht⟩

/-- C3, amended: the amount check is skipped for no one — when the intended
amount is ≤ 0 the code treats the relative difference as 0%, so
`date_and_amount` fires for every same-vendor candidate within 7 days with
parsable dates, including candidates with positive amounts; only a positive
intended amount makes the 10% relative-difference test effective. -/
theorem claim_C3_zero_amount (vendor_name : String) (amount : ℚ)
    (order_date : String) (order_number : Option String)
    (existing : List InvoiceRec) (inv : InvoiceRec)
    (hinv : inv ∈ existing) (hamt : amount ≤ 0)
    (hsim : ¬ (string_similarity vendor_name inv.vendor_name < 8/10))
    (td idate : Int) (htd : parseIsoDate order_date = some td)
    (hde : inv.order_date.isEmpty = false)
    (hid : parseIsoDate inv.order_date = some idate)
    (hdiff : (td - idate).natAbs ≤ 7) :
    ∃ m ∈ check_invoice_duplicates vendor_name amount order_date order_number
        existing,
      m.data = inv ∧ "date_and_amount" ∈ m.matched_fields :=
  invoice_nonpos_amount_fires vendor_name amount order_date order_number
    existing inv hinv hamt hsim td idate htd hde hid hdiff

/-- C3, witness: the amended theorem applied at the concrete zero-amount
input. -/
theorem claim_C3_witness :
    (⟨"i1", "acme", 100, "2025-01-12", ""⟩ : InvoiceRec) ∈
        [(⟨"i1", "acme", 100, "2025-01-12", ""⟩ : InvoiceRec)] ∧
    (0 : ℚ) ≤ 0 ∧
    ¬ (string_similarity "acme" "acme" < 8/10) ∧
    parseIsoDate "2025-01-10" = some 20098 ∧
    ("2025-01-12" : String).isEmpty = false ∧
    parseIsoDate "2025-01-12" = some 20100 ∧
    ((20098 : Int) - 20100).natAbs ≤ 7 ∧
    ∃ m ∈ check_invoice_duplicates "acme" 0 "2025-01-10" none
        [⟨"i1", "acme", 100, "2025-01-12", ""⟩],
      m.data = (⟨"i1", "acme", 100, "2025-01-12", ""⟩ : InvoiceRec) ∧
      "date_and_amount" ∈ m.matched_fields :=
  ⟨List.mem_singleton.mpr rfl, le_rfl,
   by rw [string_similarity_self "acme" (by decide)]; norm_num,
   by decide, by decide, by decide, by decide,
   claim_C3_zero_amount "acme" 0 "2025-01-10" none
     [⟨"i1", "acme", 100, "2025-01-12", ""⟩]
     ⟨"i1", "acme", 100, "2025-01-12", ""⟩ (List.mem_singleton.mpr rfl)
     le_rfl
     (by rw [string_similarity_self "acme" (by decide)]; norm_num)
     20098 20100 (by decide) (by decide) (by decide) (by decide)⟩

theorem checkVendorOne_email (name : String) (email phone : Option String)
    (v : VendorRec) (he : pyTruthy email = true)
    (hve : pyTruthy v.email = true)
    (heq : normalize_string email = normalize_string v.email) :
    "email" ∈ (checkVendorOne name email phone v).1 ∧
    (checkVendorOne name email phone v).2 = 1 := by
  unfold checkVendorOne
  dsimp only
  split_ifs <;> simp_all

/-- C8: whenever the intended email and a candidate's email are both present
(truthy) and equal after normalization, that candidate is returned with the
`email` tag and a similarity score of exactly 1.0, regardless of the names. -/
theorem claim_C8_email_definitive (name : String) (email phone : Option String)
    (existing : List VendorRec) (v : VendorRec) (hv : v ∈ existing)
    (he : pyTruthy email = true) (hve : pyTruthy v.email = true)
    (heq : normalize_string email = normalize_string v.email) :
    ∃ m ∈ check_vendor_duplicates name email phone existing,
      m.data = v ∧ "email" ∈ m.matched_fields ∧ m.similarity_score = 1 := by
  obtain ⟨hmem, hsc⟩ := checkVendorOne_email name email phone v he hve heq
  refine ⟨⟨v.id, (checkVendorOne name email phone v).2,
    (checkVendorOne name email phone v).1, v⟩, ?_, rfl, hmem, hsc⟩
  unfold check_vendor_duplicates
  rw [mem_sortDesc]
  apply List.mem_filterMap.mpr
  refine ⟨v, hv, ?_⟩
  dsimp only
  rw [if_neg (List.ne_nil_of_mem hmem)]

/-- C8, witness: the theorem applied to an utterly dissimilar vendor name with
the same-after-normalization email. -/
theorem claim_C8_witness :
    (⟨"v1", "Completely Different Industries", some "A@B.C ", none, []⟩ :
        VendorRec) ∈
      [(⟨"v1", "Completely Different Industries", some "A@B.C ", none, []⟩ :
        VendorRec)] ∧
    pyTruthy (some "a@b.c") = true ∧
    pyTruthy (⟨"v1", "Completely Different Industries", some "A@B.C ", none,
      []⟩ : VendorRec).email = true ∧
    normalize_string (some "a@b.c") =
      normalize_string (⟨"v1", "Completely Different Industries",
        some "A@B.C ", none, []⟩ : VendorRec).email ∧
    ∃ m ∈ check_vendor_duplicates "zzz" (some "a@b.c") none
        [⟨"v1", "Completely Different Industries", some "A@B.C ", none, []⟩],
      m.data = (⟨"v1", "Completely Different Industries", some "A@B.C ", none,
        []⟩ : VendorRec) ∧
      "email" ∈ m.matched_fields ∧ m.similarity_score = 1 :=
  ⟨List.mem_singleton.mpr rfl, by decide, by decide, by decide,
   claim_C8_email_definitive "zzz" (some "a@b.c") none
     [⟨"v1", "Completely Different Industries", some "A@B.C ", none, []⟩]
     ⟨"v1", "Completely Different Industries", some "A@B.C ", none, []⟩
     (List.mem_singleton.mpr rfl) (by decide) (by decide) (by decide)⟩

theorem dictGet_eq_none {α : Type} {d : List (String × α)} {k : String}
    (h : ∀ p ∈ d, p.1 ≠ k) : dictGet d k = none := by
  unfold dictGet
  rw [List.find?_eq_none.mpr (by simpa using h)]

theorem forall_of_dictGet_eq_none {α : Type} {d : List (String × α)}
    {k : String} (h : dictGet d k = none) : ∀ p ∈ d, p.1 ≠ k := by
  unfold dictGet at h
  cases hf : d.find? (fun p => p.1 = k) with
  | none => simpa using List.find?_eq_none.mp hf
  | some p => rw [hf] at h; simp at h

theorem dictGet_dictSet_fresh {α : Type} {d : List (String × α)} {k : String}
    (v : α) (h : dictGet d k = none) :
    dictSet d k v = d ++ [(k, v)] ∧ dictGet (d ++ [(k, v)]) k = some v := by
  have hall := forall_of_dictGet_eq_none h
  have hany : d.any (fun p => p.1 = k) = false := by
    rw [List.any_eq_false]
    intro x hx
    simpa using hall x hx
  constructor
  · unfold dictSet
    simp [hany]
  · unfold dictGet
    rw [List.find?_append, List.find?_eq_none.mpr (by simpa using hall)]
    simp

theorem dictGet_dictPop {α : Type} (d : List (String × α)) (k : String) :
    dictGet (dictPop d k) k = none := by
  apply dictGet_eq_none
  intro p hp
  simpa using List.of_mem_filter hp

theorem logEntry_no_rotation {ε : Type} (st : AuditLoggerState ε) (e : ε)
    (h : st.current.length < MAX_ENTRIES) :
    logEntry st e = ⟨st.current ++ [LogLine.good e], st.archive⟩ := by
  unfold logEntry rotate_if_needed
  rw [if_neg (by simp only [countEntries]; omega)]

theorem confirm_unknown_id (store : VendorStore) (st : SafeState)
    (nid now : String) (tnow : Nat) (oid choice : String)
    (tid : Option String) (h : pcGet st oid = none) :
    confirm_operation store st nid now tnow oid choice tid =
      .ok (mkFailedResult ("No pending operation found with ID " ++ oid)
        "Operation not found or already processed", st) := by
  unfold confirm_operation
  rw [h]

theorem confirm_bad_choice (store : VendorStore) (st : SafeState)
    (nid now : String) (tnow : Nat) (oid choice : String)
    (tid : Option String) (p : PendingOp) (hp : pcGet st oid = some p)
    (h1 : choice ≠ "cancel") (h2 : choice ≠ "create_new")
    (h3 : choice ≠ "update_existing") (h4 : choice ≠ "confirm")
    (h5 : choice ≠ "proceed") :
    confirm_operation store st nid now tnow oid choice tid =
      .ok (mkFailedResult ("Unknown choice: " ++ choice) "Invalid choice",
        pcRemove st oid) := by
  unfold confirm_operation
  rw [hp]
  dsimp only
  rw [if_neg h1, if_neg h2, if_neg h3, if_neg (not_or.mpr ⟨h4, h5⟩)]

theorem confirm_cancel_pending (store : VendorStore) (st : SafeState)
    (nid now : String) (tnow : Nat) (oid : String) (tid : Option String)
    (p : PendingOp) (hp : pcGet st oid = some p) :
    confirm_operation store st nid now tnow oid "cancel" tid =
      .ok (mkPlainResult "cancelled" "Operation cancelled by user",
        withLog (pcRemove st oid)
          ⟨now, p.operation, p.entity_type, "jeff", p.intended_data,
            p.duplicates.length, p.duplicates, some false, some "cancel",
            "cancelled", none, none, none, none⟩) := by
  unfold confirm_operation
  rw [hp]
  rfl

theorem add_vendor_skip_fail (store : VendorStore) (st : SafeState)
    (oid now : String) (tnow : Nat) (name : String)
    (cn em ph : Option String) (pr : Option (List String)) (ltd : Option Int)
    (nts : Option String) (e : String)
    (hadd : store.add_vendor name cn em ph pr ltd nts = .error e) :
    add_vendor_safe store st oid now tnow name cn em ph pr ltd nts true =
      .ok (mkFailedResult ("Failed to add vendor: " ++ e) e,
        withLog st ⟨now, "add_vendor", "vendor", "jeff",
          vendorIntendedDict name cn em ph pr ltd nts, 0, [], some true,
          some "create_new", "failed", none, none, none, some e⟩) := by
  unfold add_vendor_safe addVendorWritePath
  rw [hadd]
  rfl

theorem update_vendor_not_found (store : VendorStore) (st : SafeState)
    (oid : String) (tnow : Nat) (name : String) (cn em ph : Option String)
    (pr : Option (List String)) (ltd : Option Int) (nts : Option String)
    (hget : store.get_vendor name = .ok none) :
    update_vendor_safe store st oid tnow name cn em ph pr ltd nts =
      .ok (mkFailedResult ("Vendor " ++ name ++ " not found.")
        "Vendor not found", st) := by
  unfold update_vendor_safe
  rw [hget]

theorem add_vendor_nodup_fail (store : VendorStore) (st : SafeState)
    (oid now : String) (tnow : Nat) (name : String)
    (cn em ph : Option String) (pr : Option (List String)) (ltd : Option Int)
    (nts : Option String) (vendors : List Vendor) (e : String)
    (hga : store.get_all_vendors = .ok vendors)
    (hnodup : check_vendor_duplicates name em ph (vendors.map vendorToRec) = [])
    (hadd : store.add_vendor name cn em ph pr ltd nts = .error e) :
    add_vendor_safe store st oid now tnow name cn em ph pr ltd nts false =
      .ok (mkFailedResult ("Failed to add vendor: " ++ e) e,
        withLog st ⟨now, "add_vendor", "vendor", "jeff",
          vendorIntendedDict name cn em ph pr ltd nts, 0, [], none,
          none, "failed", none, none, none, some e⟩) := by
  unfold add_vendor_safe
  rw [if_neg Bool.false_ne_true, hga]
  dsimp only
  rw [if_pos hnodup]
  unfold addVendorWritePath
  rw [hadd]
  rfl

theorem confirm_update_write_fail (store : VendorStore) (st : SafeState)
    (nid now : String) (tnow : Nat) (oid : String) (tid : Option String)
    (p : PendingOp) (e : String) (hp : pcGet st oid = some p)
    (hop : p.operation = "update_vendor")
    (hupd : store.update_vendor (asStr (pyGet p.intended_data "name"))
      (asOptStr (pyGet p.intended_data "contact_name"))
      (asOptStr (pyGet p.intended_data "email"))
      (asOptStr (pyGet p.intended_data "phone"))
      (asOptListStr (pyGet p.intended_data "products"))
      (asOptInt (pyGet p.intended_data "lead_time_days"))
      (asOptStr (pyGet p.intended_data "notes")) = .error e) :
    confirm_operation store st nid now tnow oid "confirm" tid =
      .ok (mkFailedResult ("Failed to update vendor: " ++ e) e,
        withLog (pcRemove st oid)
          ⟨now, "update_vendor", "vendor", "jeff", p.intended_data, 0, [],
            some true, some "confirm", "failed", none, none, none, some e⟩) := by
  unfold confirm_operation
  rw [hp]
  dsimp only
  rw [if_neg (by decide), if_neg (by decide), if_neg (by decide),
    if_pos (Or.inl rfl), if_pos hop]
  unfold confirmUpdateWrite
  rw [hupd]

/-- C1, counterexample: `confirm` on an unknown operation id returns status
`failed` while the state — in particular the audit log — is left untouched:
this failure path appends no audit entry at all. -/
theorem claim_C1_counterexample :
    confirm_operation stubStore emptySafeState "n1" "t1" 0 "op1" "cancel"
        none =
      .ok (mkFailedResult "No pending operation found with ID op1"
        "Operation not found or already processed", emptySafeState) ∧
    (mkFailedResult "No pending operation found with ID op1"
      "Operation not found or already processed").status = "failed" ∧
    emptySafeState.logger.current = [] :=
  ⟨rfl, rfl, rfl⟩

/-- C1, amended: a store-write exception during the add flow — whether the
duplicate check was skipped or ran and found nothing — and during the staged
update executed by `confirm`, each appends exactly one audit entry with
result `failed` (and the error preserved); but `confirm` with an
unknown/expired operation id, `confirm` of a pending operation with an
unrecognized choice, and `updateSafe` on a missing vendor all return status
`failed` without appending any audit entry. -/
theorem claim_C1_failed_audit :
    (∀ (store : VendorStore) (st : SafeState) (oid now : String) (tnow : Nat)
        (name : String) (cn em ph : Option String) (pr : Option (List String))
        (ltd : Option Int) (nts : Option String) (e : String),
      store.add_vendor name cn em ph pr ltd nts = .error e →
      st.logger.current.length < MAX_ENTRIES →
      ∃ res st1,
        add_vendor_safe store st oid now tnow name cn em ph pr ltd nts true =
          .ok (res, st1) ∧
        res.status = "failed" ∧
        (∃ en : AuditEntry,
          st1.logger.current = st.logger.current ++ [LogLine.good en] ∧
          en.result = "failed" ∧ en.error = some e) ∧
        st1.pendingMap = st.pendingMap) ∧
    (∀ (store : VendorStore) (st : SafeState) (oid now : String) (tnow : Nat)
        (name : String) (cn em ph : Option String) (pr : Option (List String))
        (ltd : Option Int) (nts : Option String) (vendors : List Vendor)
        (e : String),
      store.get_all_vendors = .ok vendors →
      check_vendor_duplicates name em ph (vendors.map vendorToRec) = [] →
      store.add_vendor name cn em ph pr ltd nts = .error e →
      st.logger.current.length < MAX_ENTRIES →
      ∃ res st1,
        add_vendor_safe store st oid now tnow name cn em ph pr ltd nts false =
          .ok (res, st1) ∧
        res.status = "failed" ∧
        (∃ en : AuditEntry,
          st1.logger.current = st.logger.current ++ [LogLine.good en] ∧
          en.result = "failed" ∧ en.error = some e) ∧
        st1.pendingMap = st.pendingMap) ∧
    (∀ (store : VendorStore) (st : SafeState) (nid now : String) (tnow : Nat)
        (oid : String) (tid : Option String) (p : PendingOp) (e : String),
      pcGet st oid = some p →
      p.operation = "update_vendor" →
      store.update_vendor (asStr (pyGet p.intended_data "name"))
        (asOptStr (pyGet p.intended_data "contact_name"))
        (asOptStr (pyGet p.intended_data "email"))
        (asOptStr (pyGet p.intended_data "phone"))
        (asOptListStr (pyGet p.intended_data "products"))
        (asOptInt (pyGet p.intended_data "lead_time_days"))
        (asOptStr (pyGet p.intended_data "notes")) = .error e →
      st.logger.current.length < MAX_ENTRIES →
      ∃ res st1,
        confirm_operation store st nid now tnow oid "confirm" tid =
          .ok (res, st1) ∧
        res.status = "failed" ∧
        (∃ en : AuditEntry,
          st1.logger.current = st.logger.current ++ [LogLine.good en] ∧
          en.result = "failed" ∧ en.error = some e) ∧
        pcGet st1 oid = none) ∧
    (∀ (store : VendorStore) (st : SafeState) (nid now : String) (tnow : Nat)
        (oid choice : String) (tid : Option String),
      pcGet st oid = none →
      confirm_operation store st nid now tnow oid choice tid =
        .ok (mkFailedResult ("No pending operation found with ID " ++ oid)
          "Operation not found or already processed", st)) ∧
    (∀ (store : VendorStore) (st : SafeState) (nid now : String) (tnow : Nat)
        (oid choice : String) (tid : Option String) (p : PendingOp),
      pcGet st oid = some p →
      choice ≠ "cancel" → choice ≠ "create_new" → choice ≠ "update_existing" →
      choice ≠ "confirm" → choice ≠ "proceed" →
      confirm_operation store st nid now tnow oid choice tid =
        .ok (mkFailedResult ("Unknown choice: " ++ choice) "Invalid choice",
          pcRemove st oid)) ∧
    (∀ (store : VendorStore) (st : SafeState) (oid : String) (tnow : Nat)
        (name : String) (cn em ph : Option String)
        (pr : Option (List String)) (ltd : Option Int) (nts : Option String),
      store.get_vendor name = .ok none →
      update_vendor_safe store st oid tnow name cn em ph pr ltd nts =
        .ok (mkFailedResult ("Vendor " ++ name ++ " not found.")
          "Vendor not found", st)) := by
  refine ⟨?_, ?_, ?_, ?_, ?_, ?_⟩
  · intro store st oid now tnow name cn em ph pr ltd nts e hadd hlen
    refine ⟨mkFailedResult ("Failed to add vendor: " ++ e) e,
      withLog st ⟨now, "add_vendor", "vendor", "jeff",
        vendorIntendedDict name cn em ph pr ltd nts, 0, [], some true,
        some "create_new", "failed", none, none, none, some e⟩,
      add_vendor_skip_fail store st oid now tnow name cn em ph pr ltd nts e
        hadd,
      rfl,
      ⟨⟨now, "add_vendor", "vendor", "jeff",
        vendorIntendedDict name cn em ph pr ltd nts, 0, [], some true,
        some "create_new", "failed", none, none, none, some e⟩, ?_, rfl, rfl⟩,
      rfl⟩
    show (logEntry st.logger _).current = _
    rw [logEntry_no_rotation st.logger _ hlen]
  · intro store st oid now tnow name cn em ph pr ltd nts vendors e hga hnodup
      hadd hlen
    refine ⟨mkFailedResult ("Failed to add vendor: " ++ e) e,
      withLog st ⟨now, "add_vendor", "vendor", "jeff",
        vendorIntendedDict name cn em ph pr ltd nts, 0, [], none, none,
        "failed", none, none, none, some e⟩,
      add_vendor_nodup_fail store st oid now tnow name cn em ph pr ltd nts
        vendors e hga hnodup hadd,
      rfl,
      ⟨⟨now, "add_vendor", "vendor", "jeff",
        vendorIntendedDict name cn em ph pr ltd nts, 0, [], none, none,
        "failed", none, none, none, some e⟩, ?_, rfl, rfl⟩,
      rfl⟩
    show (logEntry st.logger _).current = _
    rw [logEntry_no_rotation st.logger _ hlen]
  · intro store st nid now tnow oid tid p e hp hop hupd hlen
    refine ⟨mkFailedResult ("Failed to update vendor: " ++ e) e,
      withLog (pcRemove st oid)
        ⟨now, "update_vendor", "vendor", "jeff", p.intended_data, 0, [],
          some true, some "confirm", "failed", none, none, none, some e⟩,
      confirm_update_write_fail store st nid now tnow oid tid p e hp hop hupd,
      rfl,
      ⟨⟨now, "update_vendor", "vendor", "jeff", p.intended_data, 0, [],
        some true, some "confirm", "failed", none, none, none, some e⟩,
        ?_, rfl, rfl⟩,
      ?_⟩
    · show (logEntry st.logger _).current = _
      rw [logEntry_no_rotation st.logger _ hlen]
    · exact dictGet_dictPop _ _
  · intro store st nid now tnow oid choice tid h
    exact confirm_unknown_id store st nid now tnow oid choice tid h
  · intro store st nid now tnow oid choice tid p hp h1 h2 h3 h4 h5
    exact confirm_bad_choice store st nid now tnow oid choice tid p hp h1 h2
      h3 h4 h5
  · intro store st oid tnow name cn em ph pr ltd nts hget
    exact update_vendor_not_found store st oid tnow name cn em ph pr ltd nts
      hget

/-- C1, witness: the amended theorem applied concretely — the skipped-check
add-failure at an always-raising store, the checked add-failure at a store
with no vendors, the staged-update write failure on a pending update, and the
unknown-id branch at an empty state. -/
theorem claim_C1_witness :
    (stubStore.add_vendor "V" none none none none none none =
        .error "store down" ∧
      emptySafeState.logger.current.length < MAX_ENTRIES ∧
      ∃ res st1,
        add_vendor_safe stubStore emptySafeState "o1" "t1" 0 "V" none none
            none none none none true = .ok (res, st1) ∧
        res.status = "failed" ∧
        (∃ en : AuditEntry,
          st1.logger.current =
            emptySafeState.logger.current ++ [LogLine.good en] ∧
          en.result = "failed" ∧ en.error = some "store down") ∧
        st1.pendingMap = emptySafeState.pendingMap) ∧
    (emptyFailStore.get_all_vendors = .ok [] ∧
      check_vendor_duplicates "V" none none
        (([] : List Vendor).map vendorToRec) = [] ∧
      emptyFailStore.add_vendor "V" none none none none none none =
        .error "store down" ∧
      emptySafeState.logger.current.length < MAX_ENTRIES ∧
      ∃ res st1,
        add_vendor_safe emptyFailStore emptySafeState "o2" "t2" 0 "V" none
            none none none none none false = .ok (res, st1) ∧
        res.status = "failed" ∧
        (∃ en : AuditEntry,
          st1.logger.current =
            emptySafeState.logger.current ++ [LogLine.good en] ∧
          en.result = "failed" ∧ en.error = some "store down") ∧
        st1.pendingMap = emptySafeState.pendingMap) ∧
    (pcGet (SafeState.mk [("u1", ⟨0, "update_vendor", "vendor",
          [("name", PyVal.vStr "acme")], []⟩)] [("u1", 0)] ⟨[], []⟩) "u1" =
        some ⟨0, "update_vendor", "vendor", [("name", PyVal.vStr "acme")], []⟩ ∧
      (⟨0, "update_vendor", "vendor", [("name", PyVal.vStr "acme")], []⟩ :
        PendingOp).operation = "update_vendor" ∧
      stubStore.update_vendor
        (asStr (pyGet [("name", PyVal.vStr "acme")] "name"))
        (asOptStr (pyGet [("name", PyVal.vStr "acme")] "contact_name"))
        (asOptStr (pyGet [("name", PyVal.vStr "acme")] "email"))
        (asOptStr (pyGet [("name", PyVal.vStr "acme")] "phone"))
        (asOptListStr (pyGet [("name", PyVal.vStr "acme")] "products"))
        (asOptInt (pyGet [("name", PyVal.vStr "acme")] "lead_time_days"))
        (asOptStr (pyGet [("name", PyVal.vStr "acme")] "notes")) =
          .error "store down" ∧
      ∃ res st1,
        confirm_operation stubStore
            (SafeState.mk [("u1", ⟨0, "update_vendor", "vendor",
              [("name", PyVal.vStr "acme")], []⟩)] [("u1", 0)] ⟨[], []⟩)
            "n2" "t3" 0 "u1" "confirm" none = .ok (res, st1) ∧
        res.status = "failed" ∧
        (∃ en : AuditEntry,
          st1.logger.current =
            (SafeState.mk [("u1", ⟨0, "update_vendor", "vendor",
              [("name", PyVal.vStr "acme")], []⟩)] [("u1", 0)]
              ⟨[], []⟩).logger.current ++ [LogLine.good en] ∧
          en.result = "failed" ∧ en.error = some "store down") ∧
        pcGet st1 "u1" = none) ∧
    (pcGet emptySafeState "op9" = none ∧
      confirm_operation stubStore emptySafeState "n" "t" 0 "op9" "cancel"
          none =
        .ok (mkFailedResult ("No pending operation found with ID " ++ "op9")
          "Operation not found or already processed", emptySafeState)) :=
  ⟨⟨rfl, by decide,
    claim_C1_failed_audit.1 stubStore emptySafeState "o1" "t1" 0 "V" none
      none none none none none "store down" rfl (by decide)⟩,
   ⟨rfl, rfl, rfl, by decide,
    claim_C1_failed_audit.2.1 emptyFailStore emptySafeState "o2" "t2" 0 "V"
      none none none none none none [] "store down" rfl rfl rfl (by decide)⟩,
   ⟨rfl, rfl, rfl,
    claim_C1_failed_audit.2.2.1 stubStore
      (SafeState.mk [("u1", ⟨0, "update_vendor", "vendor",
        [("name", PyVal.vStr "acme")], []⟩)] [("u1", 0)] ⟨[], []⟩)
      "n2" "t3" 0 "u1" none
      ⟨0, "update_vendor", "vendor", [("name", PyVal.vStr "acme")], []⟩
      "store down" rfl rfl rfl (by decide)⟩,
   ⟨rfl,
    claim_C1_failed_audit.2.2.2.1 stubStore emptySafeState "n" "t" 0 "op9"
      "cancel" none rfl⟩⟩

/-- C10: `confirm` removes the pending entry before it inspects the choice,
so even a call with an unrecognized choice (returning `failed`) permanently
consumes the pending operation — every later `confirm` on the same id fails
with the unknown-id message, whatever the choice. -/
theorem claim_C10_consumed (store : VendorStore) (st : SafeState)
    (nid now : String) (tnow : Nat) (oid choice : String)
    (tid : Option String) (p : PendingOp) (hp : pcGet st oid = some p)
    (h1 : choice ≠ "cancel") (h2 : choice ≠ "create_new")
    (h3 : choice ≠ "update_existing") (h4 : choice ≠ "confirm")
    (h5 : choice ≠ "proceed") :
    confirm_operation store st nid now tnow oid choice tid =
      .ok (mkFailedResult ("Unknown choice: " ++ choice) "Invalid choice",
        pcRemove st oid) ∧
    pcGet (pcRemove st oid) oid = none ∧
    (∀ (store2 : VendorStore) (nid2 now2 : String) (tnow2 : Nat)
        (choice2 : String) (tid2 : Option String),
      confirm_operation store2 (pcRemove st oid) nid2 now2 tnow2 oid choice2
          tid2 =
        .ok (mkFailedResult ("No pending operation found with ID " ++ oid)
          "Operation not found or already processed", pcRemove st oid)) := by
  have hrm : pcGet (pcRemove st oid) oid = none := dictGet_dictPop _ _
  exact ⟨confirm_bad_choice store st nid now tnow oid choice tid p hp h1 h2 h3
      h4 h5,
    hrm, fun store2 nid2 now2 tnow2 choice2 tid2 =>
      confirm_unknown_id store2 _ nid2 now2 tnow2 oid choice2 tid2 hrm⟩

/-- C10, witness: the theorem applied to a state holding one pending add
operation and the invalid choice "weird". -/
theorem claim_C10_witness :
    pcGet (SafeState.mk [("op1", ⟨0, "add_vendor", "vendor", [], []⟩)]
        [("op1", 0)] ⟨[], []⟩) "op1" =
      some ⟨0, "add_vendor", "vendor", [], []⟩ ∧
    ("weird" : String) ≠ "cancel" ∧ ("weird" : String) ≠ "create_new" ∧
    ("weird" : String) ≠ "update_existing" ∧ ("weird" : String) ≠ "confirm" ∧
    ("weird" : String) ≠ "proceed" ∧
    (confirm_operation stubStore
        (SafeState.mk [("op1", ⟨0, "add_vendor", "vendor", [], []⟩)]
          [("op1", 0)] ⟨[], []⟩) "n" "t" 0 "op1" "weird" none =
      .ok (mkFailedResult ("Unknown choice: " ++ "weird") "Invalid choice",
        pcRemove (SafeState.mk [("op1", ⟨0, "add_vendor", "vendor", [], []⟩)]
          [("op1", 0)] ⟨[], []⟩) "op1") ∧
    pcGet (pcRemove (SafeState.mk [("op1", ⟨0, "add_vendor", "vendor", [], []⟩)]
        [("op1", 0)] ⟨[], []⟩) "op1") "op1" = none ∧
    (∀ (store2 : VendorStore) (nid2 now2 : String) (tnow2 : Nat)
        (choice2 : String) (tid2 : Option String),
      confirm_operation store2
          (pcRemove (SafeState.mk [("op1", ⟨0, "add_vendor", "vendor", [], []⟩)]
            [("op1", 0)] ⟨[], []⟩) "op1") nid2 now2 tnow2 "op1" choice2 tid2 =
        .ok (mkFailedResult ("No pending operation found with ID " ++ "op1")
          "Operation not found or already processed",
          pcRemove (SafeState.mk [("op1", ⟨0, "add_vendor", "vendor", [], []⟩)]
            [("op1", 0)] ⟨[], []⟩) "op1"))) :=
  ⟨rfl, by decide, by decide, by decide, by decide, by decide,
   claim_C10_consumed stubStore
     (SafeState.mk [("op1", ⟨0, "add_vendor", "vendor", [], []⟩)]
       [("op1", 0)] ⟨[], []⟩) "n" "t" 0 "op1" "weird" none
     ⟨0, "add_vendor", "vendor", [], []⟩ rfl (by decide) (by decide)
     (by decide) (by decide) (by decide)⟩

theorem checkVendorOne_ne_nil_of_sim (name : String)
    (email phone : Option String) (v : VendorRec)
    (h : 3/4 ≤ string_similarity name v.name) :
    (checkVendorOne name email phone v).1 ≠ [] := by
  unfold checkVendorOne
  dsimp only
  split_ifs <;> simp_all

theorem check_vendor_duplicates_ne_nil (name : String)
    (email phone : Option String) (existing : List VendorRec) (v : VendorRec)
    (hv : v ∈ existing) (h : 3/4 ≤ string_similarity name v.name) :
    check_vendor_duplicates name email phone existing ≠ [] := by
  intro hnil
  have hmem : (⟨v.id, (checkVendorOne name email phone v).2,
      (checkVendorOne name email phone v).1, v⟩ : DuplicateMatch VendorRec) ∈
      check_vendor_duplicates name email phone existing := by
    unfold check_vendor_duplicates
    rw [mem_sortDesc]
    apply List.mem_filterMap.mpr
    refine ⟨v, hv, ?_⟩
    dsimp only
    rw [if_neg (checkVendorOne_ne_nil_of_sim name email phone v h)]
  rw [hnil] at hmem
  exact absurd hmem (List.not_mem_nil _)

theorem add_vendor_dup_path (store : VendorStore) (st : SafeState)
    (oid now : String) (tnow : Nat) (name : String) (cn em ph : Option String)
    (pr : Option (List String)) (ltd : Option Int) (nts : Option String)
    (vendors : List Vendor) (hga : store.get_all_vendors = .ok vendors)
    (hdup : check_vendor_duplicates name em ph (vendors.map vendorToRec) ≠ []) :
    add_vendor_safe store st oid now tnow name cn em ph pr ltd nts false =
      .ok (⟨"duplicate_found",
        "Found " ++
          toString (check_vendor_duplicates name em ph
            (vendors.map vendorToRec)).length ++
          " potential duplicate(s). Need confirmation.",
        some oid,
        some (check_vendor_duplicates name em ph (vendors.map vendorToRec)),
        some (vendorIntendedDict name cn em ph pr ltd nts), none, none, none,
        none, none⟩,
        withLog (pcAdd st oid ⟨tnow, "add_vendor", "vendor",
            vendorIntendedDict name cn em ph pr ltd nts,
            check_vendor_duplicates name em ph (vendors.map vendorToRec)⟩ tnow)
          ⟨now, "add_vendor", "vendor", "jeff",
            vendorIntendedDict name cn em ph pr ltd nts,
            (check_vendor_duplicates name em ph (vendors.map vendorToRec)).length,
            check_vendor_duplicates name em ph (vendors.map vendorToRec),
            none, none, "pending", none, none, none, none⟩) := by
  unfold add_vendor_safe
  rw [if_neg Bool.false_ne_true, hga]
  dsimp only
  rw [if_neg hdup]

/-- C6: the create flow with a fuzzy name match.  `addSafe` with a name at
similarity ≥ 0.75 to some existing vendor (duplicate check not skipped)
returns `duplicate_found` carrying the fresh operation id, stores exactly one
new pending confirmation under that id, and appends one audit entry with
result `pending`; `confirm(id, "cancel")` then removes the pending entry,
appends one `cancelled` audit entry and returns `cancelled`; and every later
`confirm` on that id — any choice, any store — returns status `failed`
leaving the state unchanged. -/
theorem claim_C6_create_flow (store : VendorStore) (st : SafeState)
    (opId now : String) (tnow : Nat) (name : String)
    (cn email phone : Option String) (pr : Option (List String))
    (ltd : Option Int) (nts : Option String) (vendors : List Vendor)
    (v : Vendor) (hga : store.get_all_vendors = .ok vendors)
    (hv : v ∈ vendors) (hsim : 3/4 ≤ string_similarity name v.name)
    (hfresh : pcGet st opId = none)
    (hlog : st.logger.current.length + 1 < MAX_ENTRIES) :
    ∃ res1 st1,
      add_vendor_safe store st opId now tnow name cn email phone pr ltd nts
          false = .ok (res1, st1) ∧
      res1.status = "duplicate_found" ∧ res1.operation_id = some opId ∧
      (∃ p : PendingOp, pcGet st1 opId = some p ∧ p.operation = "add_vendor") ∧
      st1.pendingMap.length = st.pendingMap.length + 1 ∧
      (∃ en : AuditEntry,
        st1.logger.current = st.logger.current ++ [LogLine.good en] ∧
        en.result = "pending") ∧
      ∀ (nid2 now2 : String) (tnow2 : Nat),
        ∃ res2 st2,
          confirm_operation store st1 nid2 now2 tnow2 opId "cancel" none =
            .ok (res2, st2) ∧
          res2.status = "cancelled" ∧
          pcGet st2 opId = none ∧
          (∃ en2 : AuditEntry,
            st2.logger.current = st1.logger.current ++ [LogLine.good en2] ∧
            en2.result = "cancelled") ∧
          ∀ (store3 : VendorStore) (nid3 now3 : String) (tnow3 : Nat)
              (choice3 : String) (tid3 : Option String),
            ∃ res3,
              confirm_operation store3 st2 nid3 now3 tnow3 opId choice3 tid3 =
                .ok (res3, st2) ∧
              res3.status = "failed" := by
  have hvr : vendorToRec v ∈ vendors.map vendorToRec := List.mem_map_of_mem _ hv
  have hsim' : 3/4 ≤ string_similarity name (vendorToRec v).name := hsim
  have hdup : check_vendor_duplicates name email phone
      (vendors.map vendorToRec) ≠ [] :=
    check_vendor_duplicates_ne_nil name email phone _ _ hvr hsim'
  have hfresh' : dictGet st.pendingMap opId = none := hfresh
  obtain ⟨hset, hget⟩ := dictGet_dictSet_fresh
    (⟨tnow, "add_vendor", "vendor", vendorIntendedDict name cn email phone pr
      ltd nts, check_vendor_duplicates name email phone
      (vendors.map vendorToRec)⟩ : PendingOp) hfresh'
  refine ⟨_, _, add_vendor_dup_path store st opId now tnow name cn email phone
    pr ltd nts vendors hga hdup, rfl, rfl, ?_, ?_, ?_, ?_⟩
  · refine ⟨⟨tnow, "add_vendor", "vendor", vendorIntendedDict name cn email
      phone pr ltd nts, check_vendor_duplicates name email phone
      (vendors.map vendorToRec)⟩, ?_, rfl⟩
    show dictGet (dictSet st.pendingMap opId _) opId = _
    rw [hset]
    exact hget
  · show (dictSet st.pendingMap opId _).length = _
    rw [hset]
    simp
  · refine ⟨⟨now, "add_vendor", "vendor", "jeff",
      vendorIntendedDict name cn email phone pr ltd nts,
      (check_vendor_duplicates name email phone
        (vendors.map vendorToRec)).length,
      check_vendor_duplicates name email phone (vendors.map vendorToRec),
      none, none, "pending", none, none, none, none⟩, ?_, rfl⟩
    show (logEntry st.logger _).current = _
    rw [logEntry_no_rotation st.logger _ (by omega)]
  · intro nid2 now2 tnow2
    have hget1 : pcGet (withLog (pcAdd st opId
        ⟨tnow, "add_vendor", "vendor", vendorIntendedDict name cn email phone
          pr ltd nts, check_vendor_duplicates name email phone
          (vendors.map vendorToRec)⟩ tnow)
        ⟨now, "add_vendor", "vendor", "jeff",
          vendorIntendedDict name cn email phone pr ltd nts,
          (check_vendor_duplicates name email phone
            (vendors.map vendorToRec)).length,
          check_vendor_duplicates name email phone (vendors.map vendorToRec),
          none, none, "pending", none, none, none, none⟩) opId =
        some ⟨tnow, "add_vendor", "vendor", vendorIntendedDict name cn email
          phone pr ltd nts, check_vendor_duplicates name email phone
          (vendors.map vendorToRec)⟩ := by
      show dictGet (dictSet st.pendingMap opId _) opId = _
      rw [hset]
      exact hget
    refine ⟨_, _, confirm_cancel_pending store _ nid2 now2 tnow2 opId none _
      hget1, rfl, ?_, ?_, ?_⟩
    · exact dictGet_dictPop _ _
    · refine ⟨⟨now2, "add_vendor", "vendor", "jeff",
        vendorIntendedDict name cn email phone pr ltd nts,
        (check_vendor_duplicates name email phone
          (vendors.map vendorToRec)).length,
        check_vendor_duplicates name email phone (vendors.map vendorToRec),
        some false, some "cancel", "cancelled", none, none, none, none⟩,
        ?_, rfl⟩
      show (logEntry (logEntry st.logger _) _).current = _
      rw [logEntry_no_rotation st.logger _ (by omega),
        logEntry_no_rotation _ _ (by simp; omega)]
      show _ = (logEntry st.logger _).current ++ _
      rw [logEntry_no_rotation st.logger _ (by omega)]
    · intro store3 nid3 now3 tnow3 choice3 tid3
      exact ⟨_, confirm_unknown_id store3 _ nid3 now3 tnow3 opId choice3 tid3
        (dictGet_dictPop _ _), rfl⟩

theorem sim_acmee_acme : (3 : ℚ)/4 ≤ string_similarity "acmee" "acme" := by
  have h1 : normalize_string (some "acmee") = ['a', 'c', 'm', 'e', 'e'] := by
    decide
  have h2 : normalize_string (some "acme") = ['a', 'c', 'm', 'e'] := by decide
  have h3 : levDist ['a', 'c', 'm', 'e', 'e'] ['a', 'c', 'm', 'e'] = 1 := by
    decide
  simp only [string_similarity, h1, h2, h3]
  rw [if_neg (by simp)]
  norm_num

/-- C6, witness: the create-flow theorem applied to a store holding "acme"
and an intended name "acmee" (similarity 0.8 ≥ 0.75), from a fresh state. -/
theorem claim_C6_witness :
    oneVendorStore.get_all_vendors =
      .ok [⟨"acme", none, none, none, [], none, none, none, none⟩] ∧
    (⟨"acme", none, none, none, [], none, none, none, none⟩ : Vendor) ∈
      [(⟨"acme", none, none, none, [], none, none, none, none⟩ : Vendor)] ∧
    (3 : ℚ)/4 ≤ string_similarity "acmee"
      (⟨"acme", none, none, none, [], none, none, none, none⟩ : Vendor).name ∧
    pcGet emptySafeState "op1" = none ∧
    emptySafeState.logger.current.length + 1 < MAX_ENTRIES ∧
    ∃ res1 st1,
      add_vendor_safe oneVendorStore emptySafeState "op1" "t0" 0 "acmee" none
          none none none none none false = .ok (res1, st1) ∧
      res1.status = "duplicate_found" ∧ res1.operation_id = some "op1" ∧
      (∃ p : PendingOp, pcGet st1 "op1" = some p ∧ p.operation = "add_vendor") ∧
      st1.pendingMap.length = emptySafeState.pendingMap.length + 1 ∧
      (∃ en : AuditEntry,
        st1.logger.current = emptySafeState.logger.current ++ [LogLine.good en] ∧
        en.result = "pending") ∧
      ∀ (nid2 now2 : String) (tnow2 : Nat),
        ∃ res2 st2,
          confirm_operation oneVendorStore st1 nid2 now2 tnow2 "op1" "cancel"
              none = .ok (res2, st2) ∧
          res2.status = "cancelled" ∧
          pcGet st2 "op1" = none ∧
          (∃ en2 : AuditEntry,
            st2.logger.current = st1.logger.current ++ [LogLine.good en2] ∧
            en2.result = "cancelled") ∧
          ∀ (store3 : VendorStore) (nid3 now3 : String) (tnow3 : Nat)
              (choice3 : String) (tid3 : Option String),
            ∃ res3,
              confirm_operation store3 st2 nid3 now3 tnow3 "op1" choice3 tid3 =
                .ok (res3, st2) ∧
              res3.status = "failed" :=
  ⟨rfl, List.mem_singleton.mpr rfl, sim_acmee_acme, rfl, by decide,
   claim_C6_create_flow oneVendorStore emptySafeState "op1" "t0" 0 "acmee"
     none none none none none none
     [⟨"acme", none, none, none, [], none, none, none, none⟩]
     ⟨"acme", none, none, none, [], none, none, none, none⟩ rfl
     (List.mem_singleton.mpr rfl) sim_acmee_acme rfl (by decide)⟩
